import Mathlib

/-!
Verification development for the paginated REST API client
(src/api_client/api_client.py).  The pagination cursor engine
(`get_paginated_data`), the response extractor and the rate limiter are
shallowly embedded below; HTTP transport and JSON decoding are modelled by
an oracle mapping each request index to either a parsed body or an error.
-/

/-- JSON-like values as produced by `response.json()`.  Python `None` is
`Json.null`; numbers are modelled as integers (all bodies in this
development are integral).  Objects keep field order, as Python dicts do. -/
inductive Json where
  | null : Json
  | bool (b : Bool) : Json
  | str (s : String) : Json
  | num (n : Int) : Json
  | arr (xs : List Json) : Json
  | obj (fields : List (String × Json)) : Json

/-- Python exceptions that the client code can raise or propagate. -/
inductive PyErr where
  | requestException (msg : String)
  | valueError (msg : String)
  | attributeError (msg : String)
  | typeError (msg : String)
  | keyError (msg : String)
  deriving DecidableEq, Repr

/-- Python truthiness (`if x:`) on JSON-like values. -/
def jtruthy : Json → Bool
  | .null => false
  | .bool b => b
  | .str s => !s.toList.isEmpty
  | .num n => n != 0
  | .arr xs => !xs.isEmpty
  | .obj fs => !fs.isEmpty

/-- Truthiness of an `Optional[str]` (`None` and `""` are falsy). -/
def optStrTruthy : Option String → Bool
  | some s => !s.toList.isEmpty
  | none => false

/-- Truthiness of an `Optional[int]` (`None` and `0` are falsy). -/
def intOptTruthy : Option Int → Bool
  | some n => n != 0
  | none => false

/-- First binding of a key in an ordered association list (Python dicts
cannot hold duplicate keys, so the frontmost binding is the binding). -/
def jlookup : List (String × Json) → String → Option Json
  | [], _ => none
  | (k, v) :: rest, key => if k = key then some v else jlookup rest key

/-- Python `d[k] = v` on an ordered dict: overwrite in place if the key
exists, otherwise append at the end. -/
def dictSet : List (String × Json) → String → Json → List (String × Json)
  | [], k, v => [(k, v)]
  | (a, b) :: rest, k, v =>
      if a = k then (a, v) :: rest else (a, b) :: dictSet rest k v

/-- Python `d.update(e)`: set every binding of `e` into `d` in order. -/
def dictUpdate (d : List (String × Json)) : List (String × Json) → List (String × Json)
  | [] => d
  | (k, v) :: rest => dictUpdate (dictSet d k v) rest

/-- `isNull j` decides `j is None`. -/
def isNull : Json → Bool
  | .null => true
  | _ => false

/-- Python `data.get(k)` with default `None`: only dicts have `.get`. -/
def pyDictGet (data : Json) (k : String) : Except PyErr Json :=
  match data with
  | .obj fs => .ok ((jlookup fs k).getD .null)
  | _ => .error (.attributeError "object has no attribute get")

/-- Python `data.get(k, [])`: only dicts have `.get`. -/
def pyDictGetList (data : Json) (k : String) : Except PyErr Json :=
  match data with
  | .obj fs => .ok ((jlookup fs k).getD (.arr []))
  | _ => .error (.attributeError "object has no attribute get")

/-- Substring test, modelling the Python `needle in haystack` check on
strings. -/
def isSubstring (needle hay : String) : Bool :=
  (List.range (hay.length + 1)).any
    (fun i => (hay.toList.drop i).take needle.length = needle.toList)

/-- Python `key in data` for an `Optional[str]` key: key lookup on dicts,
membership on lists, substring test on strings, `TypeError` otherwise. -/
def pyIn (key : Option String) (data : Json) : Except PyErr Bool :=
  match data with
  | .obj fs =>
      .ok (match key with
           | some k => (jlookup fs k).isSome
           | none => false)
  | .arr xs =>
      .ok (match key with
           | some k => xs.any (fun j => match j with | .str s => s = k | _ => false)
           | none => xs.any (fun j => match j with | .null => true | _ => false))
  | .str s =>
      match key with
      | some k => .ok (isSubstring k s)
      | none => .error (.typeError "in <string> requires string as left operand")
  | _ => .error (.typeError "argument is not iterable")

/-- Python `data[key]` for an `Optional[str]` key. -/
def pyIndex (data : Json) (key : Option String) : Except PyErr Json :=
  match data with
  | .obj fs =>
      match key with
      | some k =>
          match jlookup fs k with
          | some v => .ok v
          | none => .error (.keyError k)
      | none => .error (.keyError "None")
  | _ => .error (.typeError "object is not subscriptable")

/-- Python `list.extend(items)`: the elements an `extend` call appends.
Lists contribute their elements, strings their characters, dicts their
keys; other values are not iterable and raise `TypeError`. -/
def pyExtend : Json → Except PyErr (List Json)
  | .arr xs => .ok xs
  | .str s => .ok (s.toList.map (fun c => .str (String.mk [c])))
  | .obj fs => .ok (fs.map (fun p => .str p.1))
  | _ => .error (.typeError "object is not iterable")

/-- Python `offset >= total` where `total` is a JSON value (ints compare
numerically, bools count as 0 or 1, anything else raises `TypeError`). -/
def pyGeInt (a : Int) (j : Json) : Except PyErr Bool :=
  match j with
  | .num n => .ok (decide (n ≤ a))
  | .bool b => .ok (decide ((if b then (1 : Int) else 0) ≤ a))
  | _ => .error (.typeError "unorderable types")

/-- `common_keys` from `_find_data_array` (api_client.py line 333). -/
def common_keys : List String := ["results", "data", "items", "records", "rows", "entries"]

/-- First common key whose value is a list (api_client.py lines 335-337). -/
def findCommonKey : List String → List (String × Json) → Option (List Json)
  | [], _ => none
  | k :: ks, fs =>
      match jlookup fs k with
      | some (.arr xs) => some xs
      | _ => findCommonKey ks fs

/-- First list-valued entry in key iteration order (lines 340-342). -/
def firstListValue : List (String × Json) → Option (List Json)
  | [] => none
  | (_, .arr xs) :: _ => some xs
  | _ :: rest => firstListValue rest

/-- `_find_data_array` (api_client.py lines 322-345) on a dict body. -/
def _find_data_array (fs : List (String × Json)) : List Json :=
  match findCommonKey common_keys fs with
  | some xs => xs
  | none => (firstListValue fs).getD []

/-- Item extraction, api_client.py lines 233-240: with a truthy
`data_key`, `data.get(data_key, [])` (which requires a dict and can
return a non-list); otherwise a bare list body is taken whole, a dict
body goes through `_find_data_array`, and any other body raises (the
`in`-probing of `_find_data_array` fails on non-iterables, and string
bodies fail on string indexing or `.values()`). -/
def extractItems (data_key : Option String) (data : Json) : Except PyErr Json :=
  if optStrTruthy data_key then
    pyDictGetList data (data_key.getD "")
  else
    match data with
    | .arr xs => .ok (.arr xs)
    | .obj fs => .ok (.arr (_find_data_array fs))
    | _ => .error (.typeError "argument is not iterable")

/-! ### URL helpers

Models of the `urllib.parse` collaborators, restricted to the shapes the
client uses: `http`/`https` absolute URLs and scheme-less references,
without fragments, parameters or percent-escapes.  String primitives are
re-implemented by structural recursion on the character list so that the
kernel can evaluate every concrete run. -/

/-- Split a character list at the first occurrence of `c`; the second
component is `none` when `c` does not occur. -/
def splitFirst (c : Char) : List Char → List Char × Option (List Char)
  | [] => ([], none)
  | x :: xs =>
      if x = c then ([], some xs)
      else
        let p := splitFirst c xs
        (x :: p.1, p.2)

/-- `stripPre pre l` removes the prefix `pre` from `l`, or returns `none`
when `l` does not start with it. -/
def stripPre : List Char → List Char → Option (List Char)
  | [], l => some l
  | _ :: _, [] => none
  | p :: ps, c :: cs => if c = p then stripPre ps cs else none

/-- Python `s.startswith(pre)`. -/
def startsWithS (s pre : String) : Bool :=
  (stripPre pre.toList s.toList).isSome

/-- Split a character list at every occurrence of `c` (Python
`s.split(c)`, always at least one field). -/
def splitAll (c : Char) : List Char → List (List Char)
  | [] => [[]]
  | x :: xs =>
      if x = c then [] :: splitAll c xs
      else
        match splitAll c xs with
        | [] => [[x]]
        | h :: t => (x :: h) :: t

structure UrlParts where
  scheme : String
  netloc : String
  path : String
  query : String

/-- Modelled from `urllib.parse.urlparse`, for `http(s)` URLs and
scheme-less references without fragments: the network location runs to
the first `/` or `?`, and the query is everything after the first `?`. -/
def urlparse (s : String) : UrlParts :=
  let core : String → List Char → UrlParts := fun scheme rest =>
    let netloc := rest.takeWhile (fun c => !(c = '/' || c = '?'))
    let pathq := rest.dropWhile (fun c => !(c = '/' || c = '?'))
    let p := splitFirst '?' pathq
    ⟨scheme, String.mk netloc, String.mk p.1, String.mk (p.2.getD [])⟩
  match stripPre "http://".toList s.toList with
  | some rest => core "http" rest
  | none =>
    match stripPre "https://".toList s.toList with
    | some rest => core "https" rest
    | none =>
      let p := splitFirst '?' s.toList
      ⟨"", "", String.mk p.1, String.mk (p.2.getD [])⟩

/-- The base path's directory: everything up to and including the last
slash, or "/" when there is none (RFC 3986 merge, as `urljoin` does). -/
def dirOf (p : String) : String :=
  let d := (p.toList.reverse.dropWhile (fun c => !(c = '/'))).reverse
  if d = [] then "/" else String.mk d

/-- Modelled from `urllib.parse.urljoin`, for `http(s)` bases and the
reference shapes the client produces (absolute URLs, absolute paths and
relative paths; no dot-segment normalisation). -/
def urljoin (base url : String) : String :=
  if startsWithS url "http://" || startsWithS url "https://" then url
  else if url.toList.isEmpty then base
  else
    let b := urlparse base
    let origin := b.scheme ++ "://" ++ b.netloc
    if startsWithS url "/" then origin ++ url
    else origin ++ dirOf b.path ++ url

/-- Modelled from `urllib.parse.parse_qsl` with default flags: split the
query on `&`, split each field at the first `=`, and drop fields with no
`=` or an empty value (percent-decoding is not modelled; the client's
queries contain no escapes). -/
def parse_qsl (query : String) : List (String × String) :=
  (splitAll '&' query.toList).filterMap (fun part =>
    let p := splitFirst '=' part
    match p.2 with
    | none => none
    | some v => if v = [] then none else some (String.mk p.1, String.mk v))

def qsInsert (d : List (String × List String)) (k v : String) :
    List (String × List String) :=
  if (d.any (fun p => p.1 = k)) then
    d.map (fun p => if p.1 = k then (p.1, p.2 ++ [v]) else p)
  else d ++ [(k, [v])]

/-- Modelled from `urllib.parse.parse_qs`: group `parse_qsl` pairs by key,
keys in first-occurrence order, values in order. -/
def parse_qs (query : String) : List (String × List String) :=
  (parse_qsl query).foldl (fun d p => qsInsert d p.1 p.2) []

/-- `{k: v[0] if len(v) == 1 else v for k, v in url_params.items()}`
(api_client.py line 207). -/
def collapseQs (d : List (String × List String)) : List (String × Json) :=
  d.map (fun p =>
    match p.2 with
    | [v] => (p.1, Json.str v)
    | vs => (p.1, Json.arr (vs.map Json.str)))

/-- `base_url.rstrip('/')` (api_client.py line 74). -/
def rstripSlash (s : String) : String :=
  String.mk (s.toList.reverse.dropWhile (fun c => c = '/')).reverse

/-! ### Rate limiter (api_client.py lines 20-44)

Time is modelled as an explicit rational-valued clock.  `wait_if_needed`
takes the current time, returns the slept duration and the updated
limiter; the second `time.time()` call after the sleep is modelled as the
wakeup instant `now + sleep`. -/

structure RateLimiter where
  calls_per_second : ℚ
  min_interval : ℚ
  last_call_time : ℚ

/-- `RateLimiter.__init__` (lines 23-32): `min_interval = 1 / cps`,
`last_call_time = 0.0`. -/
def RateLimiter.init (cps : ℚ) : RateLimiter :=
  ⟨cps, 1 / cps, 0⟩

/-- `RateLimiter.wait_if_needed` (lines 34-44): sleep the remainder of the
minimum interval, then record the current time as the last call time. -/
def RateLimiter.wait_if_needed (rl : RateLimiter) (now : ℚ) : ℚ × RateLimiter :=
  let time_since_last_call := now - rl.last_call_time
  if time_since_last_call < rl.min_interval then
    let sleep_time := rl.min_interval - time_since_last_call
    (sleep_time, { rl with last_call_time := now + sleep_time })
  else
    (0, { rl with last_call_time := now })

/-- A sequence of `wait_if_needed` invocations at the given clock
readings. -/
def RateLimiter.iterateCalls (rl : RateLimiter) : List ℚ → RateLimiter
  | [] => rl
  | now :: rest => RateLimiter.iterateCalls (rl.wait_if_needed now).2 rest

/-! ### The pagination cursor engine (api_client.py lines 150-320) -/

/-- The keyword arguments of `get_paginated_data`, with the source's
defaults. -/
structure Config where
  endpoint : String
  page_size : Int := 100
  max_pages : Option Int := none
  pagination_type : String := "offset"
  page_param : String := "page"
  size_param : String := "page_size"
  offset_param : String := "offset"
  data_key : Option String := none
  next_page_key : Option String := some "next"
  total_key : Option String := some "total"
  custom_params : Option (List (String × Json)) := none
  stop_condition : Option (Json → Bool) := none
  start_page : Int := 1

/-- The loop's local mutable variables (lines 187-193), plus the running
request index used to address the response oracle. -/
structure LoopState where
  endpoint : String
  all_data : List Json
  page : Int
  offset : Int
  cursor : Json
  next_url : Json
  total_items : Json
  pages_retrieved : Nat
  reqIdx : Nat

/-- Lines 187-193: initial loop state. -/
def initState (cfg : Config) : LoopState :=
  { endpoint := cfg.endpoint
    all_data := []
    page := if cfg.pagination_type == "page" || cfg.pagination_type == "url"
            then cfg.start_page else 0
    offset := 0
    cursor := .null
    next_url := .null
    total_items := .null
    pages_retrieved := 0
    reqIdx := 0 }

/-- One issued request: the endpoint passed to `_make_request`, the full
URL it resolves (`urljoin(base_url, endpoint)`, line 131) and the query
parameters. -/
structure Request where
  endpoint : String
  url : String
  params : List (String × Json)

/-- Parameter building, api_client.py lines 196-226.  Returns the
(possibly reassigned) endpoint and the parameter dict. -/
def buildRequest (cfg : Config) (st : LoopState) :
    Except PyErr (String × List (String × Json)) :=
  let params0 := cfg.custom_params.getD []
  if cfg.pagination_type == "url" && jtruthy st.next_url then
    match st.next_url with
    | .str s =>
        let parsed := urlparse s
        let ps := collapseQs (parse_qs parsed.query)
        let ps := match cfg.custom_params with
                  | some cp => dictUpdate ps cp
                  | none => ps
        .ok (parsed.path, ps)
    | _ => .error (.attributeError "urlparse expects a string")
  else if cfg.pagination_type == "page" then
    .ok (st.endpoint,
         dictSet (dictSet params0 cfg.page_param (.num st.page))
           cfg.size_param (.num cfg.page_size))
  else if cfg.pagination_type == "offset" then
    .ok (st.endpoint,
         dictSet (dictSet params0 cfg.offset_param (.num st.offset))
           cfg.size_param (.num cfg.page_size))
  else if cfg.pagination_type == "cursor" && jtruthy st.cursor then
    .ok (st.endpoint,
         dictSet (dictSet params0 "cursor" st.cursor)
           cfg.size_param (.num cfg.page_size))
  else if cfg.pagination_type == "cursor" then
    .ok (st.endpoint, dictSet params0 cfg.size_param (.num cfg.page_size))
  else if cfg.pagination_type == "url" then
    .ok (st.endpoint,
         dictSet (dictSet params0 cfg.page_param (.num st.page))
           cfg.size_param (.num cfg.page_size))
  else
    .ok (st.endpoint, params0)

/-- Strategy-specific continuation, api_client.py lines 270-310.  The
state passed in already carries the updated `total_items`; `none` means
the loop breaks with success. -/
def paginationAdvance (cfg : Config) (base_url : String) (st : LoopState)
    (data : Json) (elems : List Json) : Except PyErr (Option LoopState) :=
  if cfg.pagination_type == "url" then
    match pyIn cfg.next_page_key data with
    | .error e => .error e
    | .ok mem =>
        if mem then
          match pyIndex data cfg.next_page_key with
          | .error e => .error e
          | .ok v =>
              if jtruthy v then
                match v with
                | .str s =>
                    let s2 := if !(startsWithS s "http://" || startsWithS s "https://")
                              then urljoin base_url s else s
                    .ok (some { st with next_url := .str s2 })
                | _ => .error (.attributeError "object has no attribute startswith")
              else
                if (elems.length : Int) < cfg.page_size then .ok none
                else .ok (some { st with page := st.page + 1 })
        else
          if (elems.length : Int) < cfg.page_size then .ok none
          else .ok (some { st with page := st.page + 1 })
  else if cfg.pagination_type == "cursor" then
    match pyIn cfg.next_page_key data with
    | .error e => .error e
    | .ok mem =>
        if mem then
          match pyIndex data cfg.next_page_key with
          | .error e => .error e
          | .ok v =>
              if jtruthy v then .ok (some { st with cursor := v })
              else .ok none
        else .ok none
  else if cfg.pagination_type == "page" then
    if (elems.length : Int) < cfg.page_size then .ok none
    else .ok (some { st with page := st.page + 1 })
  else if cfg.pagination_type == "offset" then
    if (elems.length : Int) < cfg.page_size then .ok none
    else
      let off2 := st.offset + (elems.length : Int)
      if jtruthy st.total_items then
        match pyGeInt off2 st.total_items with
        | .error e => .error e
        | .ok b =>
            if b then .ok none
            else .ok (some { st with offset := off2 })
      else .ok (some { st with offset := off2 })
  else
    .ok (some st)

/-- How the run ends: normal return, a propagated exception, or fuel
exhaustion (the loop would still be running). -/
inductive Outcome where
  | success (data : List Json)
  | error (e : PyErr)
  | fuelOut (partialData : List Json)

/-- The observable trace of a run: the requests issued, the per-page
element lists appended to `all_data`, and how the run ended. -/
structure RunResult where
  requests : List Request
  chunks : List (List Json)
  outcome : Outcome

/-- One iteration of the `while True` loop (lines 195-317). -/
inductive Step where
  | fail0 (e : PyErr)
  | halt (req : Request) (out : Outcome)
  | halt2 (req : Request) (chunk : List Json) (out : Outcome)
  | next (req : Request) (chunk : List Json) (st2 : LoopState)

/-- The two stop checks of api_client.py lines 262-268: `max_pages`
first (`if max_pages and pages_retrieved >= max_pages`), then the
caller's `stop_condition`; both break with the same successful result,
so they are modelled as one short-circuit disjunction. -/
def stopFlag (cfg : Config) (pr2 : Nat) (data : Json) : Bool :=
  (intOptTruthy cfg.max_pages && decide (cfg.max_pages.getD 0 ≤ (pr2 : Int)))
    || (match cfg.stop_condition with
        | some f => f data
        | none => false)

/-- One iteration of `get_paginated_data`'s loop: build the request
(lines 196-226), obtain the parsed body from the oracle (lines 230-231),
extract items (233-240), stop on an empty extraction (242-244), extend
the accumulator (247-248), record the total (256-259), check `max_pages`
then `stop_condition` (262-268), and advance per strategy (271-310).
Both `except` clauses re-raise, so every error propagates. -/
def runStep (cfg : Config) (base_url : String)
    (oracle : Nat → Except PyErr Json) (st : LoopState) : Step :=
  match buildRequest cfg st with
  | .error e => .fail0 e
  | .ok (ep, params) =>
    let req : Request := ⟨ep, urljoin base_url ep, params⟩
    match oracle st.reqIdx with
    | .error e => .halt req (.error e)
    | .ok data =>
      match extractItems cfg.data_key data with
      | .error e => .halt req (.error e)
      | .ok items =>
        if jtruthy items = false then .halt req (.success st.all_data)
        else
          match pyExtend items with
          | .error e => .halt req (.error e)
          | .ok elems =>
            let all2 := st.all_data ++ elems
            let pr2 := st.pages_retrieved + 1
            match (if optStrTruthy cfg.total_key && isNull st.total_items
                   then pyDictGet data (cfg.total_key.getD "")
                   else .ok st.total_items) with
            | .error e => .halt2 req elems (.error e)
            | .ok total2 =>
              match stopFlag cfg pr2 data with
              | true => .halt2 req elems (.success all2)
              | false =>
                match paginationAdvance cfg base_url
                        { st with total_items := total2 } data elems with
                | .error e => .halt2 req elems (.error e)
                | .ok none => .halt2 req elems (.success all2)
                | .ok (some st1) =>
                    .next req elems
                      { st1 with
                        endpoint := ep
                        all_data := all2
                        pages_retrieved := pr2
                        reqIdx := st.reqIdx + 1 }

/-- The `while True` loop, fuel-indexed. -/
def runLoop (cfg : Config) (base_url : String)
    (oracle : Nat → Except PyErr Json) : Nat → LoopState → RunResult
  | 0, st => ⟨[], [], .fuelOut st.all_data⟩
  | Nat.succ fuel, st =>
      match runStep cfg base_url oracle st with
      | .fail0 e => ⟨[], [], .error e⟩
      | .halt req out => ⟨[req], [], out⟩
      | .halt2 req chunk out => ⟨[req], [chunk], out⟩
      | .next req chunk st2 =>
          let r := runLoop cfg base_url oracle fuel st2
          ⟨req :: r.requests, chunk :: r.chunks, r.outcome⟩

/-- `PaginatedAPIClient(base_url, ...).get_paginated_data(cfg)`: the
client strips trailing slashes from the base URL at construction
(line 74) and then runs the loop from the initial state. -/
def get_paginated_data (base_url : String) (cfg : Config)
    (oracle : Nat → Except PyErr Json) (fuel : Nat) : RunResult :=
  runLoop cfg (rstripSlash base_url) oracle fuel (initState cfg)

/-! ### Helper lemmas -/

theorem jlookup_dictSet_self (d : List (String × Json)) (k : String) (v : Json) :
    jlookup (dictSet d k v) k = some v := by
  induction d with
  | nil => simp [dictSet, jlookup]
  | cons a rest ih =>
      by_cases h : a.1 = k
      · simp [dictSet, h, jlookup]
      · simp [dictSet, h, jlookup, ih]

theorem jlookup_dictSet_ne (d : List (String × Json)) (k k2 : String) (v : Json)
    (h : k2 ≠ k) : jlookup (dictSet d k v) k2 = jlookup d k2 := by
  induction d with
  | nil => simp [dictSet, jlookup, Ne.symm h]
  | cons a rest ih =>
      by_cases ha : a.1 = k
      · obtain ⟨a1, a2⟩ := a
        simp only at ha
        subst ha
        simp [dictSet, jlookup, h, Ne.symm h]
      · obtain ⟨a1, a2⟩ := a
        by_cases hb : a1 = k2
        · subst hb
          simp only at ha
          simp [dictSet, jlookup, ha, h]
        · simp [dictSet, jlookup, ha, hb, ih]

/-- Soundness facts about one loop iteration: a `halt` without a chunk
returns the untouched accumulator or an error; a `halt2` returns the
accumulator extended by exactly its chunk or an error; a `next` extends
the accumulator by its chunk and advances the request index; and an
errored response forces the error outcome, while `halt2`/`next` imply the
response was not an error. -/
theorem runStep_sound (cfg : Config) (b : String) (o : Nat → Except PyErr Json)
    (st : LoopState) :
    (∀ req out, runStep cfg b o st = .halt req out →
       ((out = .success st.all_data ∨ ∃ e, out = .error e) ∧
        (∀ e, o st.reqIdx = .error e → out = .error e))) ∧
    (∀ req c out, runStep cfg b o st = .halt2 req c out →
       ((out = .success (st.all_data ++ c) ∨ ∃ e, out = .error e) ∧
        (∀ e, o st.reqIdx ≠ .error e))) ∧
    (∀ req c st2, runStep cfg b o st = .next req c st2 →
       (st2.all_data = st.all_data ++ c ∧ st2.reqIdx = st.reqIdx + 1 ∧
        (∀ e, o st.reqIdx ≠ .error e))) := by
  unfold runStep
  try dsimp only
  repeat' split
  all_goals refine ⟨fun req out h => ?_, fun req c out h => ?_, fun req c st2 h => ?_⟩
  all_goals cases h
  all_goals simp_all

/-- In offset mode the parameter build always succeeds and carries
`offset_param = offset` then `size_param = page_size`. -/
theorem buildRequest_offset (cfg : Config) (st : LoopState)
    (h : cfg.pagination_type = "offset") :
    buildRequest cfg st =
      .ok (st.endpoint,
        dictSet (dictSet (cfg.custom_params.getD []) cfg.offset_param (.num st.offset))
          cfg.size_param (.num cfg.page_size)) := by
  unfold buildRequest
  rw [h]
  rfl

/-- In offset mode any continuing advance only bumps `offset` by the
number of extracted elements. -/
theorem paginationAdvance_offset (cfg : Config) (b : String) (st : LoopState)
    (data : Json) (elems : List Json) (h : cfg.pagination_type = "offset") :
    ∀ st1, paginationAdvance cfg b st data elems = .ok (some st1) →
      st1 = { st with offset := st.offset + (elems.length : Int) } := by
  unfold paginationAdvance
  rw [h]
  try dsimp only
  repeat' split
  all_goals intro st1 hh
  all_goals try cases hh
  all_goals simp_all

/-- Whenever an iteration issues a request, that request is exactly the
one assembled by `buildRequest` (endpoint, resolved URL, parameters). -/
theorem runStep_req (cfg : Config) (b : String) (o : Nat → Except PyErr Json)
    (st : LoopState) (ep : String) (ps : List (String × Json))
    (hb : buildRequest cfg st = .ok (ep, ps)) :
    (∀ req out, runStep cfg b o st = .halt req out → req = ⟨ep, urljoin b ep, ps⟩) ∧
    (∀ req c out, runStep cfg b o st = .halt2 req c out → req = ⟨ep, urljoin b ep, ps⟩) ∧
    (∀ req c st2, runStep cfg b o st = .next req c st2 → req = ⟨ep, urljoin b ep, ps⟩) := by
  unfold runStep
  rw [hb]
  try dsimp only
  repeat' split
  all_goals refine ⟨fun req out h => ?_, fun req c out h => ?_, fun req c st2 h => ?_⟩
  all_goals cases h
  all_goals rfl

theorem step_next_offset (cfg : Config) (b : String) (o : Nat → Except PyErr Json)
    (st : LoopState) (hty : cfg.pagination_type = "offset") :
    ∀ req c st2, runStep cfg b o st = .next req c st2 →
      st2.offset = st.offset + (c.length : Int) := by
  unfold runStep
  try dsimp only
  repeat' split
  all_goals intro req c st2 h
  all_goals try cases h
  case _ st1 heq =>
    have := paginationAdvance_offset cfg b _ _ _ hty st1 heq
    subst this
    rfl

/-- The accumulator returned by a successful run is the starting
accumulator followed by the concatenation of the per-page chunks. -/
theorem runLoop_join (cfg : Config) (b : String) (o : Nat → Except PyErr Json) :
    ∀ fuel st l, (runLoop cfg b o fuel st).outcome = .success l →
      l = st.all_data ++ (runLoop cfg b o fuel st).chunks.flatten := by
  intro fuel
  induction fuel with
  | zero => intro st l h; simp [runLoop] at h
  | succ fuel ih =>
      intro st l h
      rcases hs : runStep cfg b o st with e | ⟨req, out⟩ | ⟨req, c, out⟩ | ⟨req, c, st2⟩
      · simp only [runLoop, hs] at h
        cases h
      · simp only [runLoop, hs] at h ⊢
        rcases ((runStep_sound cfg b o st).1 req out hs).1 with hh | ⟨e, hh⟩
        · rw [hh] at h
          cases h
          simp
        · rw [hh] at h
          cases h
      · simp only [runLoop, hs] at h ⊢
        rcases ((runStep_sound cfg b o st).2.1 req c out hs).1 with hh | ⟨e, hh⟩
        · rw [hh] at h
          cases h
          simp
        · rw [hh] at h
          cases h
      · simp only [runLoop, hs] at h ⊢
        have h2 := ih st2 l h
        have h3 := ((runStep_sound cfg b o st).2.2 req c st2 hs).1
        rw [h2, h3]
        simp

/-- An errored response can only belong to the final request of a run,
and then the run's outcome is exactly that error. -/
theorem runLoop_error (cfg : Config) (b : String) (o : Nat → Except PyErr Json) :
    ∀ fuel st k e, k < (runLoop cfg b o fuel st).requests.length →
      o (st.reqIdx + k) = .error e →
      k + 1 = (runLoop cfg b o fuel st).requests.length ∧
      (runLoop cfg b o fuel st).outcome = .error e := by
  intro fuel
  induction fuel with
  | zero => intro st k e hk he; simp [runLoop] at hk
  | succ fuel ih =>
      intro st k e hk he
      rcases hs : runStep cfg b o st with e2 | ⟨req, out⟩ | ⟨req, c, out⟩ | ⟨req, c, st2⟩ <;>
        simp only [runLoop, hs] at hk ⊢
      · simp at hk
      · have hk0 : k = 0 := by simp at hk; omega
        subst hk0
        simp only [Nat.add_zero] at he
        exact ⟨rfl, ((runStep_sound cfg b o st).1 req out hs).2 e he⟩
      · have hk0 : k = 0 := by simp at hk; omega
        subst hk0
        simp only [Nat.add_zero] at he
        exact absurd he (((runStep_sound cfg b o st).2.1 req c out hs).2 e)
      · rcases k with _ | k
        · simp only [Nat.add_zero] at he
          exact absurd he (((runStep_sound cfg b o st).2.2 req c st2 hs).2.2 e)
        · have hk2 : k < (runLoop cfg b o fuel st2).requests.length := by
            simp only [List.length_cons] at hk
            omega
          have hidx : st2.reqIdx + k = st.reqIdx + (k + 1) := by
            rw [((runStep_sound cfg b o st).2.2 req c st2 hs).2.1]
            omega
          obtain ⟨h1, h2⟩ := ih st2 k e hk2 (by rw [hidx]; exact he)
          refine ⟨?_, h2⟩
          simp only [List.length_cons]
          omega

/-- In offset mode every issued request carries, as `offset_param`, the
starting offset plus the number of elements accumulated from the
preceding pages of the run. -/
theorem runLoop_offset_param (cfg : Config) (b : String) (o : Nat → Except PyErr Json)
    (hty : cfg.pagination_type = "offset") (hne : cfg.offset_param ≠ cfg.size_param) :
    ∀ fuel st k req, (runLoop cfg b o fuel st).requests.get? k = some req →
      jlookup req.params cfg.offset_param =
        some (.num (st.offset +
          (((((runLoop cfg b o fuel st).chunks.take k).map List.length).sum : Nat) : Int))) := by
  intro fuel
  induction fuel with
  | zero => intro st k req hr; simp [runLoop] at hr
  | succ fuel ih =>
      intro st k req hr
      have hbr := buildRequest_offset cfg st hty
      rcases hs : runStep cfg b o st with e2 | ⟨req0, out⟩ | ⟨req0, c, out⟩ | ⟨req0, c, st2⟩ <;>
        simp only [runLoop, hs] at hr ⊢
      · simp at hr
      · rcases k with _ | k
        · simp only [List.get?_cons_zero, Option.some.injEq] at hr
          subst hr
          have := (runStep_req cfg b o st _ _ hbr).1 req0 out hs
          subst this
          simp only [List.take_zero, List.map_nil, List.sum_nil, Nat.cast_zero, Int.add_zero]
          rw [jlookup_dictSet_ne _ _ _ _ hne, jlookup_dictSet_self]
        · simp at hr
      · rcases k with _ | k
        · simp only [List.get?_cons_zero, Option.some.injEq] at hr
          subst hr
          have := (runStep_req cfg b o st _ _ hbr).2.1 req0 c out hs
          subst this
          simp only [List.take_zero, List.map_nil, List.sum_nil, Nat.cast_zero, Int.add_zero]
          rw [jlookup_dictSet_ne _ _ _ _ hne, jlookup_dictSet_self]
        · simp at hr
      · rcases k with _ | k
        · simp only [List.get?_cons_zero, Option.some.injEq] at hr
          subst hr
          have := (runStep_req cfg b o st _ _ hbr).2.2 req0 c st2 hs
          subst this
          simp only [List.take_zero, List.map_nil, List.sum_nil, Nat.cast_zero, Int.add_zero]
          rw [jlookup_dictSet_ne _ _ _ _ hne, jlookup_dictSet_self]
        · simp only [List.get?_cons_succ] at hr
          have hoff := step_next_offset cfg b o st hty req0 c st2 hs
          have := ih st2 k req hr
          rw [this, hoff]
          simp only [List.take_succ_cons, List.map_cons, List.sum_cons]
          congr 1
          push_cast
          ring

/-! ### Claim theorems -/

theorem initState_all_data (cfg : Config) : (initState cfg).all_data = [] := rfl

theorem initState_reqIdx (cfg : Config) : (initState cfg).reqIdx = 0 := rfl

theorem initState_offset (cfg : Config) : (initState cfg).offset = 0 := rfl

/-- C8: for every successful run of `get_paginated_data`, under any
pagination strategy, the returned list is the concatenation in page
order of the per-page extracted item lists; its length is the sum of the
per-page counts, and every prefix of pages is a prefix of the result (the
accumulator only grows, with no deduplication). -/
theorem claim_C8 (base : String) (cfg : Config) (o : Nat → Except PyErr Json)
    (fuel : Nat) (l : List Json)
    (h : (get_paginated_data base cfg o fuel).outcome = .success l) :
    l = (get_paginated_data base cfg o fuel).chunks.flatten ∧
    l.length = (((get_paginated_data base cfg o fuel).chunks.map List.length).sum) ∧
    (∀ k, ∃ rest, l = ((get_paginated_data base cfg o fuel).chunks.take k).flatten ++ rest) := by
  have hj := runLoop_join cfg (rstripSlash base) o fuel (initState cfg) l h
  simp only [initState_all_data, List.nil_append] at hj
  unfold get_paginated_data
  refine ⟨hj, ?_, ?_⟩
  · rw [hj]
    exact List.length_flatten _
  · intro k
    refine ⟨(((runLoop cfg (rstripSlash base) o fuel (initState cfg)).chunks.drop k).flatten), ?_⟩
    rw [hj]
    conv_lhs => rw [← List.take_append_drop k (runLoop cfg (rstripSlash base) o fuel (initState cfg)).chunks]
    rw [List.flatten_append]

def c8wOracle : Nat → Except PyErr Json :=
  fun _ => .ok (.obj [("items", .arr [.num 1])])

def c8wConfig : Config :=
  { endpoint := "/w", page_size := 2, pagination_type := "offset", data_key := some "items" }

theorem claim_C8_witness :
    (get_paginated_data "https://h" c8wConfig c8wOracle 3).outcome = .success [Json.num 1] ∧
    [Json.num 1] = (get_paginated_data "https://h" c8wConfig c8wOracle 3).chunks.flatten ∧
    [Json.num 1].length =
      (((get_paginated_data "https://h" c8wConfig c8wOracle 3).chunks.map List.length).sum) :=
  ⟨rfl, (claim_C8 "https://h" c8wConfig c8wOracle 3 [Json.num 1] rfl).1,
    (claim_C8 "https://h" c8wConfig c8wOracle 3 [Json.num 1] rfl).2.1⟩

/-- C9: a failing transport request or unparsable body (an oracle error)
ends the run immediately: the errored request is the last one issued, no
further request is made, the exception propagates unchanged as the
outcome, and no partial result is returned. -/
theorem claim_C9 (base : String) (cfg : Config) (o : Nat → Except PyErr Json)
    (fuel k : Nat) (e : PyErr)
    (hk : k < (get_paginated_data base cfg o fuel).requests.length)
    (he : o k = .error e) :
    k + 1 = (get_paginated_data base cfg o fuel).requests.length ∧
    (get_paginated_data base cfg o fuel).outcome = .error e := by
  have := runLoop_error cfg (rstripSlash base) o fuel (initState cfg) k e hk
    (by simpa [initState_reqIdx] using he)
  exact this

def c9wOracle : Nat → Except PyErr Json :=
  fun k => if k = 0 then .ok (.obj [("items", .arr [.num 1, .num 2])])
           else .error (.requestException "boom")

def c9wConfig : Config :=
  { endpoint := "/w", page_size := 2, pagination_type := "offset", data_key := some "items" }

theorem claim_C9_witness :
    1 < (get_paginated_data "https://h" c9wConfig c9wOracle 9).requests.length ∧
    c9wOracle 1 = .error (.requestException "boom") ∧
    1 + 1 = (get_paginated_data "https://h" c9wConfig c9wOracle 9).requests.length ∧
    (get_paginated_data "https://h" c9wConfig c9wOracle 9).outcome =
      .error (.requestException "boom") :=
  ⟨by decide, rfl,
    claim_C9 "https://h" c9wConfig c9wOracle 9 1 (.requestException "boom") (by decide) rfl⟩

/-- C10: in the offset strategy, every issued request carries as
`offset_param` exactly the number of items accumulated before that
request, that is the sum of the item counts extracted from the preceding
pages (offset equals the length of `all_data`). -/
theorem claim_C10 (base : String) (cfg : Config) (o : Nat → Except PyErr Json)
    (fuel k : Nat) (req : Request)
    (hty : cfg.pagination_type = "offset") (hne : cfg.offset_param ≠ cfg.size_param)
    (hr : (get_paginated_data base cfg o fuel).requests.get? k = some req) :
    jlookup req.params cfg.offset_param =
      some (.num (((get_paginated_data base cfg o fuel).chunks.take k).flatten.length : Int)) := by
  have := runLoop_offset_param cfg (rstripSlash base) o hty hne fuel (initState cfg) k req hr
  simp only [initState_offset, zero_add] at this
  unfold get_paginated_data
  rw [this, List.length_flatten]

def c10wOracle : Nat → Except PyErr Json :=
  fun k => if k = 0 then .ok (.obj [("items", .arr [.num 1, .num 2])])
           else .ok (.obj [("items", .arr [.num 3])])

def c10wConfig : Config :=
  { endpoint := "/w", page_size := 2, pagination_type := "offset", data_key := some "items" }

theorem claim_C10_witness :
    (get_paginated_data "https://h" c10wConfig c10wOracle 9).requests.get? 1 =
      some ⟨"/w", "https://h/w", [("offset", .num 2), ("page_size", .num 2)]⟩ ∧
    jlookup [("offset", Json.num 2), ("page_size", Json.num 2)] "offset" =
      some (.num (((get_paginated_data "https://h" c10wConfig c10wOracle 9).chunks.take 1).flatten.length : Int)) :=
  ⟨rfl, claim_C10 "https://h" c10wConfig c10wOracle 9 1
    ⟨"/w", "https://h/w", [("offset", .num 2), ("page_size", .num 2)]⟩ rfl (by decide) rfl⟩

theorem str_toList_isEmpty_false (k : String) (hk : k ≠ "") :
    k.toList.isEmpty = false := by
  obtain ⟨data⟩ := k
  cases data with
  | nil => exact absurd rfl hk
  | cons c cs => rfl

/-- C6 amended: with a truthy `data_key`, extraction on an object body
returns `body[data_key]` unchanged whenever the key is present, whatever
its type, and the empty list when absent; on a non-object body (for
example a bare list) extraction raises `AttributeError` instead of
returning an empty sequence. -/
theorem claim_C6 (k : String) (hk : k ≠ "") (fs : List (String × Json)) (xs : List Json) :
    extractItems (some k) (.obj fs) = .ok ((jlookup fs k).getD (.arr [])) ∧
    extractItems (some k) (.arr xs) = .error (.attributeError "object has no attribute get") := by
  have ht : optStrTruthy (some k) = true := by
    show (!k.toList.isEmpty) = true
    rw [str_toList_isEmpty_false k hk]
    rfl
  constructor
  · simp [extractItems, ht, pyDictGetList]
  · simp [extractItems, ht, pyDictGetList]

theorem claim_C6_witness :
    extractItems (some "k") (.obj [("x", .num 7)]) = .ok (.arr []) ∧
    extractItems (some "k") (.arr [.num 1]) =
      .error (.attributeError "object has no attribute get") :=
  ⟨(claim_C6 "k" (by decide) [("x", .num 7)] [.num 1]).1,
   (claim_C6 "k" (by decide) [("x", .num 7)] [.num 1]).2⟩

/-- C6 counterexample: with `data_key = "k"` present but bound to the
non-list `5`, extraction returns `5` itself, not the empty sequence the
claim requires; and on a bare-list body extraction fails with
`AttributeError` rather than never failing. -/
theorem claim_C6_counterexample :
    extractItems (some "k") (.obj [("k", .num 5)]) = .ok (.num 5) ∧
    (Json.num 5 ≠ Json.arr []) ∧
    extractItems (some "k") (.arr [.num 1]) =
      .error (.attributeError "object has no attribute get") :=
  ⟨rfl, fun h => Json.noConfusion h, rfl⟩

/-- The responses of the C1 scenario: the first page carries a relative
next-link, the second is a full page without any next-link, further pages
are full pages. -/
def c1Oracle : Nat → Except PyErr Json
  | 0 => .ok (.obj [("results", .arr [.num 1, .num 2]), ("next", .str "/items?page=7")])
  | 1 => .ok (.obj [("results", .arr [.num 3, .num 4])])
  | _ => .ok (.obj [("results", .arr [.num 5, .num 6])])

def c1Config : Config :=
  { endpoint := "/items", page_size := 2, pagination_type := "url",
    data_key := some "results" }

/-- C1: evaluating the engine on the failing input.  After the second
page (a full page with no next-link) the code increments `page` to 2 but
never clears `next_url`, so the third request repeats the stale next-URL
request (`page = "7"`) instead of carrying the incremented page
parameter — the spec requires the incremented-`page` request. -/
theorem claim_C1 :
    (get_paginated_data "https://api.example.com" c1Config c1Oracle 3).requests.map
        (fun r => (r.endpoint, r.params)) =
      [("/items", [("page", .num 1), ("page_size", .num 2)]),
       ("/items", [("page", .str "7")]),
       ("/items", [("page", .str "7")])] ∧
    (get_paginated_data "https://api.example.com" c1Config c1Oracle 3).requests.get? 2 =
      (get_paginated_data "https://api.example.com" c1Config c1Oracle 3).requests.get? 1 :=
  ⟨rfl, rfl⟩

/-- Responses of the C2 counterexample scenario: an absolute next-link on
a different host. -/
def c2xOracle : Nat → Except PyErr Json
  | 0 => .ok (.obj [("results", .arr [.num 1, .num 2]),
                    ("next", .str "https://other.example.org/zzz?y=3")])
  | _ => .ok (.obj [("results", .arr [.num 3])])

def c2xConfig : Config :=
  { endpoint := "/items", page_size := 2, pagination_type := "url",
    data_key := some "results" }

/-- C2 counterexample: the absolute next-URL
`https://other.example.org/zzz?y=3` is not followed unmodified — the
request after it is issued to the configured base host
(`https://api.example.com/zzz`), the next-URL's scheme and host being
discarded. -/
theorem claim_C2_counterexample :
    (get_paginated_data "https://api.example.com" c2xConfig c2xOracle 3).requests.get? 1 =
      some ⟨"/zzz", "https://api.example.com/zzz", [("y", .str "3")]⟩ ∧
    ("https://api.example.com/zzz" ≠ "https://other.example.org/zzz?y=3") ∧
    (¬ startsWithS "https://api.example.com/zzz" "https://other.example.org") :=
  ⟨rfl, by decide, by decide⟩

/-- Responses of the C2 scenario: a relative next-link (no leading
slash), then an absolute cross-host next-link, then a partial page. -/
def c2Oracle : Nat → Except PyErr Json
  | 0 => .ok (.obj [("results", .arr [.num 1, .num 2]),
                    ("next", .str "items2?page=2&x=1")])
  | 1 => .ok (.obj [("results", .arr [.num 3, .num 4]),
                    ("next", .str "https://other.example.org/zzz?y=3")])
  | _ => .ok (.obj [("results", .arr [.num 5])])

def c2Config : Config :=
  { endpoint := "/items", page_size := 2, pagination_type := "url",
    data_key := some "results", custom_params := some [("x", .str "custom")] }

/-- C2 amended: a relative next-URL is resolved against the configured
base before being followed; any next-URL (relative or absolute) results
in a request to the base's scheme and host joined with the next-URL's
path, carrying the next-URL's query parameters with the caller's
`custom_params` overriding conflicting keys — an absolute next-URL's own
scheme and host are replaced by the base's. -/
theorem claim_C2 :
    (get_paginated_data "https://api.example.com" c2Config c2Oracle 5).requests.map
        (fun r => (r.endpoint, r.url, r.params)) =
      [("/items", "https://api.example.com/items",
         [("x", .str "custom"), ("page", .num 1), ("page_size", .num 2)]),
       ("/items2", "https://api.example.com/items2",
         [("page", .str "2"), ("x", .str "custom")]),
       ("/zzz", "https://api.example.com/zzz",
         [("y", .str "3"), ("x", .str "custom")])] ∧
    urljoin "https://api.example.com" "items2?page=2&x=1" =
      "https://api.example.com/items2?page=2&x=1" ∧
    (get_paginated_data "https://api.example.com" c2Config c2Oracle 5).outcome =
      .success [.num 1, .num 2, .num 3, .num 4, .num 5] :=
  ⟨rfl, rfl, rfl⟩

/-- A full-page endpoint for the C3 counterexample. -/
def c3xOracle : Nat → Except PyErr Json :=
  fun _ => .ok (.obj [("results", .arr ((List.range 10).map (fun i => .num i)))])

def c3xConfig : Config :=
  { endpoint := "/e", page_size := 10, pagination_type := "page",
    data_key := some "results", max_pages := some 0 }

/-- C3 counterexample: with `max_pages = 0` — an integer value, which the
claim includes — the engine does not stop once `pages_retrieved ≥ 0`:
`0` is falsy in Python, so the `max_pages` check never fires and the run
is still going after two full pages (two requests issued, no success
outcome), where the claim requires success after the first page. -/
theorem claim_C3_counterexample :
    (get_paginated_data "https://h" c3xConfig c3xOracle 2).requests.length = 2 ∧
    (get_paginated_data "https://h" c3xConfig c3xOracle 2).outcome =
      .fuelOut ((List.range 10).map (fun i => .num i) ++ (List.range 10).map (fun i => .num i)) :=
  ⟨rfl, rfl⟩

theorem wait_if_needed_min_interval (rl : RateLimiter) (now : ℚ) :
    (rl.wait_if_needed now).2.min_interval = rl.min_interval := by
  unfold RateLimiter.wait_if_needed
  dsimp only
  split <;> rfl

theorem wait_if_needed_ge (rl : RateLimiter) (now : ℚ) :
    rl.last_call_time + rl.min_interval ≤ (rl.wait_if_needed now).2.last_call_time := by
  unfold RateLimiter.wait_if_needed
  dsimp only
  split
  · simp only
    linarith
  · simp only
    linarith [not_lt.mp (by assumption : ¬ now - rl.last_call_time < rl.min_interval)]

theorem iterateCalls_ge (ts : List ℚ) : ∀ rl : RateLimiter,
    rl.last_call_time + ts.length * rl.min_interval ≤
      (RateLimiter.iterateCalls rl ts).last_call_time := by
  induction ts with
  | nil => intro rl; simp [RateLimiter.iterateCalls]
  | cons now rest ih =>
      intro rl
      have h1 := wait_if_needed_ge rl now
      have h2 := ih (rl.wait_if_needed now).2
      rw [wait_if_needed_min_interval] at h2
      simp only [RateLimiter.iterateCalls, List.length_cons]
      push_cast
      nlinarith [h1, h2]

/-- C7: the rate limiter.  (a) On a fresh limiter the first invocation
never sleeps (given the clock has passed one interval since epoch, as a
real wall clock has).  (b) Every invocation wakes exactly at
`max now (last_call_time + min_interval)` — that is, not before one
minimum interval after the previous invocation recorded its return — and
the recorded last-call time is that wakeup time, never earlier than one
interval after the previous record.  (c) Consequently `N` consecutive
invocations with `calls_per_second = 5`, the first at time `t0`, end
with a recorded time at least `t0 + (N - 1) * (1 / 5)`: they span at
least `(N - 1) × 0.2` seconds. -/
theorem claim_C7 :
    (∀ cps now : ℚ, 0 < cps → 1 / cps ≤ now →
       ((RateLimiter.init cps).wait_if_needed now).1 = 0) ∧
    (∀ (rl : RateLimiter) (now : ℚ),
       now + (rl.wait_if_needed now).1 = max now (rl.last_call_time + rl.min_interval) ∧
       (rl.wait_if_needed now).2.last_call_time = now + (rl.wait_if_needed now).1 ∧
       rl.last_call_time + rl.min_interval ≤ (rl.wait_if_needed now).2.last_call_time) ∧
    (∀ (t0 : ℚ) (rest : List ℚ), 1 / 5 ≤ t0 →
       t0 + rest.length * (1 / 5 : ℚ) ≤
         ((RateLimiter.init 5).iterateCalls (t0 :: rest)).last_call_time) := by
  refine ⟨?_, ?_, ?_⟩
  · intro cps now hc hn
    unfold RateLimiter.init RateLimiter.wait_if_needed
    dsimp only
    split
    · exfalso
      rename_i hlt
      simp only [sub_zero] at hlt
      linarith
    · rfl
  · intro rl now
    refine ⟨?_, ?_, wait_if_needed_ge rl now⟩
    · unfold RateLimiter.wait_if_needed
      dsimp only
      split
      · rename_i hlt
        rw [max_eq_right (by linarith)]
        ring
      · rename_i hge
        rw [max_eq_left (by linarith [not_lt.mp hge])]
        ring
    · unfold RateLimiter.wait_if_needed
      dsimp only
      split <;> simp
  · intro t0 rest h0
    have hfirst : ((RateLimiter.init 5).wait_if_needed t0).2.last_call_time = t0 := by
      unfold RateLimiter.init RateLimiter.wait_if_needed
      dsimp only
      split
      · rename_i hlt
        exfalso
        simp only [sub_zero] at hlt
        linarith
      · rfl
    have h2 := iterateCalls_ge rest ((RateLimiter.init 5).wait_if_needed t0).2
    rw [wait_if_needed_min_interval, hfirst] at h2
    simpa [RateLimiter.iterateCalls, RateLimiter.init] using h2

theorem claim_C7_witness :
    (0 : ℚ) < 5 ∧ (1 / 5 : ℚ) ≤ 1 ∧
    ((RateLimiter.init 5).wait_if_needed 1).1 = 0 ∧
    (1 : ℚ) + 2 * (1 / 5 : ℚ) ≤
      ((RateLimiter.init 5).iterateCalls [1, 1, 1]).last_call_time :=
  ⟨by norm_num, by norm_num, claim_C7.1 5 1 (by norm_num) (by norm_num),
    by
      have := claim_C7.2.2 1 [1, 1] (by norm_num)
      simpa using this⟩

/-- A continuing iteration, fully determined by its pieces. -/
theorem runStep_eq_next (cfg : Config) (b : String) (o : Nat → Except PyErr Json)
    (st : LoopState) (ep : String) (ps : List (String × Json)) (data items : Json)
    (elems : List Json) (total2 : Json) (st1 : LoopState)
    (hb : buildRequest cfg st = .ok (ep, ps))
    (ho : o st.reqIdx = .ok data)
    (hx : extractItems cfg.data_key data = .ok items)
    (hj : jtruthy items = true)
    (hpe : pyExtend items = .ok elems)
    (htot : (if optStrTruthy cfg.total_key && isNull st.total_items
             then pyDictGet data (cfg.total_key.getD "")
             else .ok st.total_items) = .ok total2)
    (hsf : stopFlag cfg (st.pages_retrieved + 1) data = false)
    (hadv : paginationAdvance cfg b { st with total_items := total2 } data elems =
              .ok (some st1)) :
    runStep cfg b o st = .next ⟨ep, urljoin b ep, ps⟩ elems
      { st1 with endpoint := ep, all_data := st.all_data ++ elems,
                 pages_retrieved := st.pages_retrieved + 1, reqIdx := st.reqIdx + 1 } := by
  unfold runStep
  rw [hb]
  dsimp only
  rw [ho]
  dsimp only
  rw [hx]
  dsimp only
  rw [hj]
  simp only [Bool.true_eq_false, if_false]
  rw [hpe]
  dsimp only
  rw [htot]
  dsimp only
  rw [hsf]
  dsimp only
  rw [hadv]

/-- An iteration that stops through `max_pages` or `stop_condition`. -/
theorem runStep_eq_stop (cfg : Config) (b : String) (o : Nat → Except PyErr Json)
    (st : LoopState) (ep : String) (ps : List (String × Json)) (data items : Json)
    (elems : List Json) (total2 : Json)
    (hb : buildRequest cfg st = .ok (ep, ps))
    (ho : o st.reqIdx = .ok data)
    (hx : extractItems cfg.data_key data = .ok items)
    (hj : jtruthy items = true)
    (hpe : pyExtend items = .ok elems)
    (htot : (if optStrTruthy cfg.total_key && isNull st.total_items
             then pyDictGet data (cfg.total_key.getD "")
             else .ok st.total_items) = .ok total2)
    (hsf : stopFlag cfg (st.pages_retrieved + 1) data = true) :
    runStep cfg b o st =
      .halt2 ⟨ep, urljoin b ep, ps⟩ elems (.success (st.all_data ++ elems)) := by
  unfold runStep
  rw [hb]
  dsimp only
  rw [ho]
  dsimp only
  rw [hx]
  dsimp only
  rw [hj]
  simp only [Bool.true_eq_false, if_false]
  rw [hpe]
  dsimp only
  rw [htot]
  dsimp only
  rw [hsf]

/-- An iteration whose strategy-specific continuation breaks the loop. -/
theorem runStep_eq_last (cfg : Config) (b : String) (o : Nat → Except PyErr Json)
    (st : LoopState) (ep : String) (ps : List (String × Json)) (data items : Json)
    (elems : List Json) (total2 : Json)
    (hb : buildRequest cfg st = .ok (ep, ps))
    (ho : o st.reqIdx = .ok data)
    (hx : extractItems cfg.data_key data = .ok items)
    (hj : jtruthy items = true)
    (hpe : pyExtend items = .ok elems)
    (htot : (if optStrTruthy cfg.total_key && isNull st.total_items
             then pyDictGet data (cfg.total_key.getD "")
             else .ok st.total_items) = .ok total2)
    (hsf : stopFlag cfg (st.pages_retrieved + 1) data = false)
    (hadv : paginationAdvance cfg b { st with total_items := total2 } data elems =
              .ok none) :
    runStep cfg b o st =
      .halt2 ⟨ep, urljoin b ep, ps⟩ elems (.success (st.all_data ++ elems)) := by
  unfold runStep
  rw [hb]
  dsimp only
  rw [ho]
  dsimp only
  rw [hx]
  dsimp only
  rw [hj]
  simp only [Bool.true_eq_false, if_false]
  rw [hpe]
  dsimp only
  rw [htot]
  dsimp only
  rw [hsf]
  dsimp only
  rw [hadv]

theorem listNe_isEmpty_false {α : Type} (l : List α) (h : l ≠ []) :
    l.isEmpty = false := by
  cases l with
  | nil => exact absurd rfl h
  | cons a t => rfl

theorem runLoop_next (cfg : Config) (b : String) (o : Nat → Except PyErr Json)
    (st st2 : LoopState) (req : Request) (c : List Json) (fuel : Nat)
    (h : runStep cfg b o st = .next req c st2) :
    runLoop cfg b o (fuel + 1) st =
      ⟨req :: (runLoop cfg b o fuel st2).requests,
       c :: (runLoop cfg b o fuel st2).chunks,
       (runLoop cfg b o fuel st2).outcome⟩ := by
  simp only [runLoop, h]

theorem runLoop_halt2 (cfg : Config) (b : String) (o : Nat → Except PyErr Json)
    (st : LoopState) (req : Request) (c : List Json) (out : Outcome) (fuel : Nat)
    (h : runStep cfg b o st = .halt2 req c out) :
    runLoop cfg b o (fuel + 1) st = ⟨[req], [c], out⟩ := by
  simp only [runLoop, h]

theorem runLoop_halt (cfg : Config) (b : String) (o : Nat → Except PyErr Json)
    (st : LoopState) (req : Request) (out : Outcome) (fuel : Nat)
    (h : runStep cfg b o st = .halt req out) :
    runLoop cfg b o (fuel + 1) st = ⟨[req], [], out⟩ := by
  simp only [runLoop, h]

theorem buildRequest_cursor_first (cfg : Config) (st : LoopState)
    (h : cfg.pagination_type = "cursor") (hc : st.cursor = .null) :
    buildRequest cfg st =
      .ok (st.endpoint,
        dictSet (cfg.custom_params.getD []) cfg.size_param (.num cfg.page_size)) := by
  unfold buildRequest
  rw [h, hc]
  rfl

theorem buildRequest_cursor_tok (cfg : Config) (st : LoopState) (s : String)
    (h : cfg.pagination_type = "cursor") (hc : st.cursor = .str s) (hs : s ≠ "") :
    buildRequest cfg st =
      .ok (st.endpoint,
        dictSet (dictSet (cfg.custom_params.getD []) "cursor" (.str s))
          cfg.size_param (.num cfg.page_size)) := by
  unfold buildRequest
  rw [h, hc]
  simp only [jtruthy, str_toList_isEmpty_false s hs]
  rfl

theorem paginationAdvance_cursor_tok (cfg : Config) (b : String) (st : LoopState)
    (data : Json) (elems : List Json) (s : String)
    (h : cfg.pagination_type = "cursor")
    (hin : pyIn cfg.next_page_key data = .ok true)
    (hidx : pyIndex data cfg.next_page_key = .ok (.str s)) (hs : s ≠ "") :
    paginationAdvance cfg b st data elems = .ok (some { st with cursor := .str s }) := by
  unfold paginationAdvance
  rw [h]
  dsimp only
  rw [hin]
  dsimp only
  rw [hidx]
  simp only [jtruthy, str_toList_isEmpty_false s hs]
  rfl

theorem paginationAdvance_cursor_stop (cfg : Config) (b : String) (st : LoopState)
    (data : Json) (elems : List Json) (v : Json)
    (h : cfg.pagination_type = "cursor")
    (hin : pyIn cfg.next_page_key data = .ok true)
    (hidx : pyIndex data cfg.next_page_key = .ok v) (hv : jtruthy v = false) :
    paginationAdvance cfg b st data elems = .ok none := by
  unfold paginationAdvance
  rw [h]
  dsimp only
  rw [hin]
  dsimp only
  rw [hidx]
  dsimp only
  rw [hv]
  rfl

def c5Config (psize : Int) : Config :=
  { endpoint := "/e", page_size := psize, pagination_type := "cursor",
    data_key := some "items" }

/-- The C5 endpoint: first response has items and a truthy `next` token,
second has items and a null `next`. -/
def c5Oracle (xs1 xs2 : List Json) (tok1 : String) : Nat → Except PyErr Json
  | 0 => .ok (.obj [("items", .arr xs1), ("next", .str tok1)])
  | 1 => .ok (.obj [("items", .arr xs2), ("next", .null)])
  | _ => .ok .null

/-- C5: against an endpoint whose first response carries items and a
truthy `next` token `tok1` and whose second carries items and a null
`next`, the cursor strategy issues exactly two requests — the first with
only the size parameter and no cursor, the second with `cursor = tok1` —
and returns both pages' items with success, with no third request. -/
theorem claim_C5 (xs1 xs2 : List Json) (tok1 : String) (psize : Int)
    (h1 : xs1 ≠ []) (h2 : xs2 ≠ []) (ht : tok1 ≠ "") :
    (get_paginated_data "https://h" (c5Config psize) (c5Oracle xs1 xs2 tok1) 5).requests.map
        Request.params =
      [[("page_size", .num psize)],
       [("cursor", .str tok1), ("page_size", .num psize)]] ∧
    (get_paginated_data "https://h" (c5Config psize) (c5Oracle xs1 xs2 tok1) 5).outcome =
      .success (xs1 ++ xs2) := by
  have hj1 : jtruthy (.arr xs1) = true := by
    simp [jtruthy, listNe_isEmpty_false xs1 h1]
  have hj2 : jtruthy (.arr xs2) = true := by
    simp [jtruthy, listNe_isEmpty_false xs2 h2]
  have step0 : runStep (c5Config psize) "https://h" (c5Oracle xs1 xs2 tok1)
      (initState (c5Config psize)) =
      .next ⟨"/e", "https://h/e", [("page_size", .num psize)]⟩ xs1
        ⟨"/e", xs1, 0, 0, .str tok1, .null, .null, 1, 1⟩ :=
    runStep_eq_next (c5Config psize) "https://h" (c5Oracle xs1 xs2 tok1)
      (initState (c5Config psize)) "/e" [("page_size", .num psize)]
      (.obj [("items", .arr xs1), ("next", .str tok1)]) (.arr xs1) xs1 .null
      ⟨"/e", [], 0, 0, .str tok1, .null, .null, 0, 0⟩
      (buildRequest_cursor_first _ _ rfl rfl) rfl rfl hj1 rfl rfl rfl
      (paginationAdvance_cursor_tok (c5Config psize) "https://h"
        (initState (c5Config psize))
        (.obj [("items", .arr xs1), ("next", .str tok1)]) xs1 tok1 rfl rfl rfl ht)
  have step1 : runStep (c5Config psize) "https://h" (c5Oracle xs1 xs2 tok1)
      ⟨"/e", xs1, 0, 0, .str tok1, .null, .null, 1, 1⟩ =
      .halt2 ⟨"/e", "https://h/e", [("cursor", .str tok1), ("page_size", .num psize)]⟩ xs2
        (.success (xs1 ++ xs2)) :=
    runStep_eq_last (c5Config psize) "https://h" (c5Oracle xs1 xs2 tok1)
      ⟨"/e", xs1, 0, 0, .str tok1, .null, .null, 1, 1⟩
      "/e" [("cursor", .str tok1), ("page_size", .num psize)]
      (.obj [("items", .arr xs2), ("next", .null)]) (.arr xs2) xs2 .null
      (buildRequest_cursor_tok _ _ tok1 rfl rfl ht) rfl rfl hj2 rfl rfl rfl
      (paginationAdvance_cursor_stop (c5Config psize) "https://h"
        ⟨"/e", xs1, 0, 0, .str tok1, .null, .null, 1, 1⟩
        (.obj [("items", .arr xs2), ("next", .null)]) xs2 .null rfl rfl rfl rfl)
  have e1 := runLoop_next _ _ _ _ _ _ _ 4 step0
  have e2 := runLoop_halt2 _ _ _ _ _ _ _ 3 step1
  unfold get_paginated_data
  rw [show rstripSlash "https://h" = "https://h" from rfl,
      show (5 : Nat) = 4 + 1 from rfl, e1,
      show (4 : Nat) = 3 + 1 from rfl, e2]
  exact ⟨rfl, rfl⟩

theorem claim_C5_witness :
    ([Json.num 1] ≠ ([] : List Json)) ∧ ([Json.num 2] ≠ ([] : List Json)) ∧
    ("tok1" ≠ "") ∧
    (get_paginated_data "https://h" (c5Config 5) (c5Oracle [.num 1] [.num 2] "tok1") 5).requests.map
        Request.params =
      [[("page_size", .num 5)],
       [("cursor", .str "tok1"), ("page_size", .num 5)]] ∧
    (get_paginated_data "https://h" (c5Config 5) (c5Oracle [.num 1] [.num 2] "tok1") 5).outcome =
      .success [.num 1, .num 2] :=
  ⟨fun h => List.noConfusion h, fun h => List.noConfusion h, by decide,
    claim_C5 [.num 1] [.num 2] "tok1" 5 (fun h => List.noConfusion h)
      (fun h => List.noConfusion h) (by decide)⟩

theorem buildRequest_page (cfg : Config) (st : LoopState)
    (h : cfg.pagination_type = "page") :
    buildRequest cfg st =
      .ok (st.endpoint,
        dictSet (dictSet (cfg.custom_params.getD []) cfg.page_param (.num st.page))
          cfg.size_param (.num cfg.page_size)) := by
  unfold buildRequest
  rw [h]
  rfl

theorem paginationAdvance_page_full (cfg : Config) (b : String) (st : LoopState)
    (data : Json) (elems : List Json) (h : cfg.pagination_type = "page")
    (hfull : ¬ ((elems.length : Int) < cfg.page_size)) :
    paginationAdvance cfg b st data elems = .ok (some { st with page := st.page + 1 }) := by
  unfold paginationAdvance
  rw [h]
  dsimp only
  rw [if_neg hfull]
  rfl

def c3Config : Config :=
  { endpoint := "/e", page_size := 10, pagination_type := "page",
    data_key := some "results", max_pages := some 3 }

/-- A page-mode endpoint always answering with the full page `xs k`. -/
def c3Oracle (xs : Nat → List Json) : Nat → Except PyErr Json :=
  fun k => .ok (.obj [("results", .arr (xs k))])

/-- C3 amended: (a) whenever `max_pages` is set to a truthy (nonzero)
value and the just-retrieved page brings `pages_retrieved` up to it, the
iteration stops successfully no matter what `stop_condition` the
configuration carries — the `max_pages` check is decided before the
caller's `stop_condition` is consulted; (b) against an endpoint always
returning full pages, `max_pages = 3` with `page_size = 10` and no stop
condition yields exactly 3 requests, with page parameters 1, 2, 3, and
exactly 30 returned items.  (With `max_pages = 0` — falsy in Python —
the check never fires; see the counterexample.) -/
theorem claim_C3 :
    (∀ (cfg : Config) (b : String) (o : Nat → Except PyErr Json) (st : LoopState)
       (ep : String) (ps : List (String × Json)) (data items : Json)
       (elems : List Json) (total2 : Json),
       buildRequest cfg st = .ok (ep, ps) →
       o st.reqIdx = .ok data →
       extractItems cfg.data_key data = .ok items →
       jtruthy items = true →
       pyExtend items = .ok elems →
       (if optStrTruthy cfg.total_key && isNull st.total_items
        then pyDictGet data (cfg.total_key.getD "")
        else .ok st.total_items) = .ok total2 →
       intOptTruthy cfg.max_pages = true →
       cfg.max_pages.getD 0 ≤ ((st.pages_retrieved + 1 : Nat) : Int) →
       runStep cfg b o st =
         .halt2 ⟨ep, urljoin b ep, ps⟩ elems (.success (st.all_data ++ elems))) ∧
    (∀ (xs : Nat → List Json), (∀ k, (xs k).length = 10) → ∀ fuel, 3 ≤ fuel →
       (get_paginated_data "https://h" c3Config (c3Oracle xs) fuel).requests.map
           Request.params =
         [[("page", .num 1), ("page_size", .num 10)],
          [("page", .num 2), ("page_size", .num 10)],
          [("page", .num 3), ("page_size", .num 10)]] ∧
       (get_paginated_data "https://h" c3Config (c3Oracle xs) fuel).outcome =
         .success ((xs 0 ++ xs 1) ++ xs 2) ∧
       ((xs 0 ++ xs 1) ++ xs 2).length = 30) := by
  constructor
  · intro cfg b o st ep ps data items elems total2 hb ho hx hj hpe htot hmax hle
    have hsf : stopFlag cfg (st.pages_retrieved + 1) data = true := by
      unfold stopFlag
      rw [hmax, decide_eq_true hle]
      rfl
    exact runStep_eq_stop cfg b o st ep ps data items elems total2
      hb ho hx hj hpe htot hsf
  · intro xs h10 fuel hf
    have hne : ∀ k, xs k ≠ [] := by
      intro k hk
      have := h10 k
      rw [hk] at this
      simp at this
    have hj : ∀ k, jtruthy (.arr (xs k)) = true := by
      intro k
      simp [jtruthy, listNe_isEmpty_false (xs k) (hne k)]
    have hfull : ∀ k, ¬ (((xs k).length : Int) < (10 : Int)) := by
      intro k
      rw [h10 k]
      norm_num
    have step0 : runStep c3Config "https://h" (c3Oracle xs)
        (initState c3Config) =
        .next ⟨"/e", "https://h/e", [("page", .num 1), ("page_size", .num 10)]⟩ (xs 0)
          ⟨"/e", xs 0, 2, 0, .null, .null, .null, 1, 1⟩ :=
      runStep_eq_next c3Config "https://h" (c3Oracle xs) (initState c3Config)
        "/e" [("page", .num 1), ("page_size", .num 10)]
        (.obj [("results", .arr (xs 0))]) (.arr (xs 0)) (xs 0) .null
        ⟨"/e", [], 2, 0, .null, .null, .null, 0, 0⟩
        (buildRequest_page _ _ rfl) rfl rfl (hj 0) rfl rfl rfl
        (paginationAdvance_page_full c3Config "https://h" (initState c3Config)
          (.obj [("results", .arr (xs 0))]) (xs 0) rfl (hfull 0))
    have step1 : runStep c3Config "https://h" (c3Oracle xs)
        ⟨"/e", xs 0, 2, 0, .null, .null, .null, 1, 1⟩ =
        .next ⟨"/e", "https://h/e", [("page", .num 2), ("page_size", .num 10)]⟩ (xs 1)
          ⟨"/e", xs 0 ++ xs 1, 3, 0, .null, .null, .null, 2, 2⟩ :=
      runStep_eq_next c3Config "https://h" (c3Oracle xs)
        ⟨"/e", xs 0, 2, 0, .null, .null, .null, 1, 1⟩
        "/e" [("page", .num 2), ("page_size", .num 10)]
        (.obj [("results", .arr (xs 1))]) (.arr (xs 1)) (xs 1) .null
        ⟨"/e", xs 0, 3, 0, .null, .null, .null, 1, 1⟩
        (buildRequest_page _ _ rfl) rfl rfl (hj 1) rfl rfl rfl
        (paginationAdvance_page_full c3Config "https://h"
          ⟨"/e", xs 0, 2, 0, .null, .null, .null, 1, 1⟩
          (.obj [("results", .arr (xs 1))]) (xs 1) rfl (hfull 1))
    have step2 : runStep c3Config "https://h" (c3Oracle xs)
        ⟨"/e", xs 0 ++ xs 1, 3, 0, .null, .null, .null, 2, 2⟩ =
        .halt2 ⟨"/e", "https://h/e", [("page", .num 3), ("page_size", .num 10)]⟩ (xs 2)
          (.success ((xs 0 ++ xs 1) ++ xs 2)) :=
      runStep_eq_stop c3Config "https://h" (c3Oracle xs)
        ⟨"/e", xs 0 ++ xs 1, 3, 0, .null, .null, .null, 2, 2⟩
        "/e" [("page", .num 3), ("page_size", .num 10)]
        (.obj [("results", .arr (xs 2))]) (.arr (xs 2)) (xs 2) .null
        (buildRequest_page _ _ rfl) rfl rfl (hj 2) rfl rfl rfl
    obtain ⟨f, rfl⟩ : ∃ f, fuel = f + 3 := ⟨fuel - 3, by omega⟩
    have e0 := runLoop_next _ _ _ _ _ _ _ (f + 2) step0
    have e1 := runLoop_next _ _ _ _ _ _ _ (f + 1) step1
    have e2 := runLoop_halt2 _ _ _ _ _ _ _ f step2
    unfold get_paginated_data
    rw [show rstripSlash "https://h" = "https://h" from rfl,
        show f + 3 = (f + 2) + 1 from rfl, e0,
        show f + 2 = (f + 1) + 1 from rfl, e1,
        show f + 1 = f + 1 from rfl, e2]
    refine ⟨rfl, rfl, ?_⟩
    simp [h10]

theorem claim_C3_witness :
    (∀ _k : Nat, (((List.range 10).map (fun i => Json.num i)) : List Json).length = 10) ∧
    (3 : Nat) ≤ 3 ∧
    (get_paginated_data "https://h" c3Config
        (c3Oracle (fun _ => (List.range 10).map (fun i => Json.num i))) 3).requests.map
        Request.params =
      [[("page", .num 1), ("page_size", .num 10)],
       [("page", .num 2), ("page_size", .num 10)],
       [("page", .num 3), ("page_size", .num 10)]] :=
  ⟨fun _ => rfl, by decide,
    (claim_C3.2 (fun _ => (List.range 10).map (fun i => Json.num i))
      (fun _ => rfl) 3 (by decide)).1⟩

theorem paginationAdvance_offset_stop (cfg : Config) (b : String) (st : LoopState)
    (data : Json) (elems : List Json) (h : cfg.pagination_type = "offset")
    (hpart : (elems.length : Int) < cfg.page_size) :
    paginationAdvance cfg b st data elems = .ok none := by
  unfold paginationAdvance
  rw [h]
  dsimp only
  simp only [if_pos hpart]
  rfl

theorem paginationAdvance_offset_cont (cfg : Config) (b : String) (st : LoopState)
    (data : Json) (elems : List Json) (h : cfg.pagination_type = "offset")
    (hfull : ¬ ((elems.length : Int) < cfg.page_size)) (htot : st.total_items = .null) :
    paginationAdvance cfg b st data elems =
      .ok (some { st with offset := st.offset + (elems.length : Int) }) := by
  unfold paginationAdvance
  rw [h]
  dsimp only
  simp only [if_neg hfull]
  rw [htot]
  rfl

theorem c4_full_ge (total psize p n : Nat) (h : p + (n + 1) = total / psize) :
    psize ≤ total - p * psize := by
  have h2 : (p + 1) * psize ≤ (total / psize) * psize :=
    Nat.mul_le_mul_right _ (by omega)
  have h3 : (total / psize) * psize ≤ total := Nat.div_mul_le_self total psize
  have h4 : (p + 1) * psize = p * psize + psize := by ring
  omega

theorem c4_last_eq (total psize : Nat) :
    total - (total / psize) * psize = total % psize := by
  have h1 := Nat.div_add_mod total psize
  have h4 : psize * (total / psize) = (total / psize) * psize := by ring
  omega

theorem mapRange_shift {α : Type} (f : Nat → α) (n p : Nat) :
    f p :: (List.range (n + 1)).map (fun i => f ((p + 1) + i)) =
    (List.range (n + 1 + 1)).map (fun i => f (p + i)) := by
  conv_rhs => rw [List.range_succ_eq_map]
  simp only [List.map_cons, List.map_map]
  have hf : ((fun i => f (p + i)) ∘ Nat.succ) = (fun i => f ((p + 1) + i)) := by
    funext i
    simp only [Function.comp]
    congr 1
    omega
  rw [hf]
  rfl

/-- The `offset` simulated endpoint: page `k` of an inventory of exactly
`total` items served in pages of `psize`. -/
def pageOf (total psize k : Nat) : List Json :=
  (List.range (min psize (total - k * psize))).map
    (fun i => .num ((k * psize + i : Nat) : Int))

def c4Config (psize : Nat) : Config :=
  { endpoint := "/items", page_size := (psize : Int), pagination_type := "offset",
    data_key := some "items" }

def c4Oracle (total psize : Nat) : Nat → Except PyErr Json :=
  fun k => .ok (.obj [("items", .arr (pageOf total psize k))])

/-- The request the offset engine issues for page `j`. -/
def c4Req (psize j : Nat) : Request :=
  ⟨"/items", "https://h/items",
   [("offset", .num ((j * psize : Nat) : Int)), ("page_size", .num (psize : Int))]⟩

/-- Loop state after `p` full pages of the C4 scenario. -/
def c4St (total psize p : Nat) : LoopState :=
  ⟨"/items", ((List.range p).map (fun i => pageOf total psize i)).flatten, 0,
   ((p * psize : Nat) : Int), .null, .null, .null, p, p⟩

theorem pageOf_length (total psize k : Nat) :
    (pageOf total psize k).length = min psize (total - k * psize) := by
  simp [pageOf]

/-- The offset engine against the simulated `total`-item endpoint: from
the state after `p` full pages, with `n` more full pages and the partial
last page left, the run issues requests `p, p+1, ..., p+n`, collects the
corresponding pages, and succeeds with all pages up to `p + n`. -/
theorem c4Aux (total psize : Nat) (hp : 0 < psize) (hr : 0 < total % psize) :
    ∀ n p fuel, p + n = total / psize → n + 1 ≤ fuel →
      runLoop (c4Config psize) "https://h" (c4Oracle total psize) fuel
          (c4St total psize p) =
        ⟨(List.range (n + 1)).map (fun i => c4Req psize (p + i)),
         (List.range (n + 1)).map (fun i => pageOf total psize (p + i)),
         .success (((List.range (p + n + 1)).map
             (fun i => pageOf total psize i)).flatten)⟩ := by
  intro n
  induction n with
  | zero =>
      intro p fuel hpn hfuel
      obtain ⟨f, rfl⟩ : ∃ f, fuel = f + 1 := ⟨fuel - 1, by omega⟩
      have hpD : p = total / psize := by omega
      have hmod : total - p * psize = total % psize := by
        rw [hpD]
        exact c4_last_eq total psize
      have hlen : (pageOf total psize p).length = total % psize := by
        rw [pageOf_length, hmod]
        exact Nat.min_eq_right (Nat.le_of_lt (Nat.mod_lt total hp))
      have hne : pageOf total psize p ≠ [] := by
        intro hh
        rw [hh] at hlen
        simp at hlen
        omega
      have hj : jtruthy (.arr (pageOf total psize p)) = true := by
        simp [jtruthy, listNe_isEmpty_false _ hne]
      have hpart : ((pageOf total psize p).length : Int) < ((psize : Nat) : Int) := by
        rw [hlen]
        exact_mod_cast Nat.mod_lt total hp
      have step : runStep (c4Config psize) "https://h" (c4Oracle total psize)
          (c4St total psize p) =
          .halt2 (c4Req psize p) (pageOf total psize p)
            (.success ((c4St total psize p).all_data ++ pageOf total psize p)) :=
        runStep_eq_last (c4Config psize) "https://h" (c4Oracle total psize)
          (c4St total psize p) "/items"
          [("offset", .num ((p * psize : Nat) : Int)),
           ("page_size", .num ((psize : Nat) : Int))]
          (.obj [("items", .arr (pageOf total psize p))]) (.arr (pageOf total psize p))
          (pageOf total psize p) .null
          (buildRequest_offset _ _ rfl) rfl rfl hj rfl rfl rfl
          (paginationAdvance_offset_stop (c4Config psize) "https://h"
            { c4St total psize p with total_items := .null }
            (.obj [("items", .arr (pageOf total psize p))]) (pageOf total psize p)
            rfl hpart)
      rw [runLoop_halt2 _ _ _ _ _ _ _ f step]
      simp only [RunResult.mk.injEq]
      refine ⟨?_, ?_, congrArg Outcome.success ?_⟩
      · simp [show List.range 1 = [0] from rfl]
      · simp [show List.range 1 = [0] from rfl]
      · rw [show p + 0 + 1 = p + 1 from rfl]
        rw [List.range_succ, List.map_append, List.flatten_append]
        simp [c4St]
  | succ n ih =>
      intro p fuel hpn hfuel
      obtain ⟨f, rfl⟩ : ∃ f, fuel = f + 1 := ⟨fuel - 1, by omega⟩
      have hge : psize ≤ total - p * psize := c4_full_ge total psize p n (by omega)
      have hlen : (pageOf total psize p).length = psize := by
        rw [pageOf_length]
        exact Nat.min_eq_left hge
      have hne : pageOf total psize p ≠ [] := by
        intro hh
        rw [hh] at hlen
        simp at hlen
        omega
      have hj : jtruthy (.arr (pageOf total psize p)) = true := by
        simp [jtruthy, listNe_isEmpty_false _ hne]
      have hfull : ¬ (((pageOf total psize p).length : Int) < ((psize : Nat) : Int)) := by
        rw [hlen]
        exact lt_irrefl _
      have step : runStep (c4Config psize) "https://h" (c4Oracle total psize)
          (c4St total psize p) =
          .next (c4Req psize p) (pageOf total psize p)
            ⟨"/items", (c4St total psize p).all_data ++ pageOf total psize p, 0,
             ((p * psize : Nat) : Int) + ((pageOf total psize p).length : Int),
             .null, .null, .null, p + 1, p + 1⟩ :=
        runStep_eq_next (c4Config psize) "https://h" (c4Oracle total psize)
          (c4St total psize p) "/items"
          [("offset", .num ((p * psize : Nat) : Int)),
           ("page_size", .num ((psize : Nat) : Int))]
          (.obj [("items", .arr (pageOf total psize p))]) (.arr (pageOf total psize p))
          (pageOf total psize p) .null
          ⟨"/items", (c4St total psize p).all_data, 0,
           ((p * psize : Nat) : Int) + ((pageOf total psize p).length : Int),
           .null, .null, .null, p, p⟩
          (buildRequest_offset _ _ rfl) rfl rfl hj rfl rfl rfl
          (paginationAdvance_offset_cont (c4Config psize) "https://h"
            { c4St total psize p with total_items := .null }
            (.obj [("items", .arr (pageOf total psize p))]) (pageOf total psize p)
            rfl hfull rfl)
      have hstA : ((c4St total psize p).all_data ++ pageOf total psize p) =
          ((List.range (p + 1)).map (fun i => pageOf total psize i)).flatten := by
        rw [List.range_succ, List.map_append, List.flatten_append]
        simp [c4St]
      have hstO : ((p * psize : Nat) : Int) + ((pageOf total psize p).length : Int) =
          (((p + 1) * psize : Nat) : Int) := by
        rw [hlen]
        push_cast
        ring
      have hstate : (⟨"/items", (c4St total psize p).all_data ++ pageOf total psize p, 0,
           ((p * psize : Nat) : Int) + ((pageOf total psize p).length : Int),
           .null, .null, .null, p + 1, p + 1⟩ : LoopState) = c4St total psize (p + 1) := by
        rw [hstA, hstO]
        rfl
      have e0 := runLoop_next _ _ _ _ _ _ _ f step
      rw [hstate] at e0
      rw [e0, ih (p + 1) f (by omega) (by omega)]
      simp only [RunResult.mk.injEq]
      refine ⟨?_, ?_, congrArg Outcome.success ?_⟩
      · exact mapRange_shift (fun j => c4Req psize j) n p
      · exact mapRange_shift (fun j => pageOf total psize j) n p
      · rw [show p + 1 + n + 1 = p + (n + 1) + 1 from by omega]

theorem flatten_pageOf_length (total psize : Nat) (hp : 0 < psize) (_hr : 0 < total % psize) :
    ∀ n p, p + n = total / psize →
      ((List.range (n + 1)).map (fun i => pageOf total psize (p + i))).flatten.length
        = total - p * psize := by
  intro n
  induction n with
  | zero =>
      intro p hpn
      have hpD : p = total / psize := by omega
      have hone : ((List.range (0 + 1)).map (fun i => pageOf total psize (p + i))).flatten
          = pageOf total psize p := by
        simp [show List.range 1 = [0] from rfl]
      rw [hone, pageOf_length, hpD, c4_last_eq total psize]
      exact Nat.min_eq_right (Nat.le_of_lt (Nat.mod_lt total hp))
  | succ n ih =>
      intro p hpn
      rw [← mapRange_shift (fun j => pageOf total psize j) n p]
      simp only [List.flatten_cons, List.length_append]
      rw [ih (p + 1) (by omega), pageOf_length]
      have hge : psize ≤ total - p * psize := c4_full_ge total psize p n (by omega)
      rw [Nat.min_eq_left hge]
      have h4 : (p + 1) * psize = p * psize + psize := by ring
      omega

theorem ceil_div_eq (total psize : Nat) (hp : 0 < psize) (hr : 0 < total % psize) :
    (total + psize - 1) / psize = total / psize + 1 := by
  have h1 := Nat.div_add_mod total psize
  have h5 : total % psize < psize := Nat.mod_lt total hp
  have heq : total + psize - 1 = psize * (total / psize + 1) + (total % psize - 1) := by
    have h2 : psize * (total / psize + 1) = psize * (total / psize) + psize := by ring
    omega
  rw [heq, Nat.mul_add_div hp, Nat.div_eq_of_lt (by omega : total % psize - 1 < psize)]

def c4bConfig : Config :=
  { endpoint := "/items", page_size := 2, pagination_type := "offset",
    data_key := some "items" }

/-- An endpoint reporting `total = 4` in every body, serving full pages
forever. -/
def c4bOracle : Nat → Except PyErr Json :=
  fun _ => .ok (.obj [("items", .arr [.num 0, .num 1]), ("total", .num 4)])

/-- C4: against a simulated endpoint serving exactly `total` items in
pages of `psize` with a partial last page (`0 < total % psize`), the
offset strategy with no `max_pages` issues exactly
`ceil(total / psize) = total / psize + 1` requests, the `k`-th carrying
`offset = k * psize` and `page_size = psize`; it returns exactly `total`
items, in page order, with success.  In addition, when the body reports a
known total (here 4) and the last page is full, the run stops through
`offset ≥ total` with `total / psize` requests. -/
theorem claim_C4 (total psize : Nat) (hp : 0 < psize) (hr : 0 < total % psize)
    (fuel : Nat) (hf : total / psize + 1 ≤ fuel) :
    (get_paginated_data "https://h" (c4Config psize) (c4Oracle total psize) fuel).requests =
      (List.range (total / psize + 1)).map (fun i => c4Req psize i) ∧
    (get_paginated_data "https://h" (c4Config psize) (c4Oracle total psize) fuel).requests.length =
      (total + psize - 1) / psize ∧
    (get_paginated_data "https://h" (c4Config psize) (c4Oracle total psize) fuel).outcome =
      .success (((List.range (total / psize + 1)).map
        (fun i => pageOf total psize i)).flatten) ∧
    (((List.range (total / psize + 1)).map (fun i => pageOf total psize i)).flatten).length
      = total ∧
    (get_paginated_data "https://h" c4bConfig c4bOracle 9).requests.length = 2 ∧
    (get_paginated_data "https://h" c4bConfig c4bOracle 9).outcome =
      .success [.num 0, .num 1, .num 0, .num 1] := by
  have h0 : c4St total psize 0 = initState (c4Config psize) := by
    unfold c4St
    rw [show ((0 * psize : Nat) : Int) = (0 : Int) by simp]
    rfl
  have haux := c4Aux total psize hp hr (total / psize) 0 fuel (by omega) (by omega)
  rw [h0] at haux
  unfold get_paginated_data
  rw [show rstripSlash "https://h" = "https://h" from rfl, haux]
  refine ⟨?_, ?_, ?_, ?_, rfl, rfl⟩
  · simp
  · simp [ceil_div_eq total psize hp hr]
  · simp
  · have hl := flatten_pageOf_length total psize hp hr (total / psize) 0 (by omega)
    simp only [Nat.zero_add] at hl
    rw [hl]
    simp

theorem claim_C4_witness :
    (0 < 2) ∧ (0 < 5 % 2) ∧ (5 / 2 + 1 ≤ 10) ∧
    (get_paginated_data "https://h" (c4Config 2) (c4Oracle 5 2) 10).requests.length =
      (5 + 2 - 1) / 2 ∧
    (((List.range (5 / 2 + 1)).map (fun i => pageOf 5 2 i)).flatten).length = 5 :=
  ⟨by decide, by decide, by decide,
    (claim_C4 5 2 (by decide) (by decide) 10 (by decide)).2.1,
    (claim_C4 5 2 (by decide) (by decide) 10 (by decide)).2.2.2.1⟩
